import Mathlib

/-!
# Verification of the interactive MCP test harness

A shallow embedding of `src/test-hf-mcp.py`: a sequential, human-in-the-loop
test runner.  Operator input is modelled as a finite stream of events; each
blocking `input()` call either yields a line, raises a cancellation signal
(KeyboardInterrupt, delivered at blocking reads), or raises EOFError when the
stream is exhausted.  Print statements carry no logic and are not modelled,
except where their occurrence is observable in the claims (the goodbye notice
and the troubleshooting hint lines, which are modelled as data).
-/

set_option autoImplicit false

namespace HFTest

/-- One event at a blocking `input()` call: either the operator enters a line,
or a cancellation signal (KeyboardInterrupt) arrives at that read. -/
inductive Ev where
  | line (s : String)
  | intr
  deriving DecidableEq, Repr

/-- The remaining operator input, consumed left to right. -/
abbrev InStream := List Ev

/-- A Python exception as observed by the handlers in this script:
`kb` is KeyboardInterrupt (a BaseException, not caught by `except Exception`),
`exc msg` is any ordinary Exception (EOFError included) with its message. -/
inductive PyExc where
  | kb
  | exc (msg : String)
  deriving DecidableEq, Repr

/-- `input()`: blocks for a line.  An exhausted stream raises EOFError; a
cancellation event raises KeyboardInterrupt. -/
def readLine : InStream → (Except PyExc String) × InStream
  | [] => (.error (.exc "EOFError"), [])
  | Ev.line str :: r => (.ok str, r)
  | Ev.intr :: r => (.error .kb, r)

/-- `response.lower().strip()` from the source: lowercase every character,
then drop whitespace from both ends.  Implemented by structural recursion on
the character list (rather than through `String.toLower.trim`, which is
extensionally the same but defined by well-founded recursion and hence not
kernel-computable); it agrees with the Python semantics on ASCII input,
which covers every input in the claims. -/
def lowerStrip (s : String) : String :=
  let cs := s.data.map Char.toLower
  String.mk (((cs.dropWhile Char.isWhitespace).reverse.dropWhile Char.isWhitespace).reverse)

/-- A check procedure: consumes input, returns a boolean verdict or raises. -/
abbrev Proc := InStream → (Except PyExc Bool) × InStream

/-- The common body of the seven plain checks: one
`input("... (y/n): ").lower().strip() == 'y'` read mapped to a boolean. -/
def askYesNo : Proc := fun s =>
  match readLine s with
  | (.ok r, s₁) => (.ok (lowerStrip r == "y"), s₁)
  | (.error e, s₁) => (.error e, s₁)

/-- Test 1, `test_basic_functionality`: prints instructions, then one
yes/no question decides the verdict. -/
def test_basic_functionality : Proc := askYesNo

/-- Test 2, `test_model_search`: same yes/no pattern. -/
def test_model_search : Proc := askYesNo

/-- Test 3, `test_model_info`: same yes/no pattern. -/
def test_model_info : Proc := askYesNo

/-- Test 4, `test_dataset_search`: same yes/no pattern. -/
def test_dataset_search : Proc := askYesNo

/-- Test 5, `test_inference`: first a gating question
(`has_token = input(...).lower().strip()`).  When the gate answer equals the
literal string n the check returns True at once (skip notice printed) and the
substantive question is never read; otherwise the substantive yes/no question
decides the verdict. -/
def test_inference : Proc := fun s =>
  match readLine s with
  | (.error e, s₁) => (.error e, s₁)
  | (.ok g, s₁) =>
    if lowerStrip g == "n" then (.ok true, s₁)
    else
      match readLine s₁ with
      | (.error e, s₂) => (.error e, s₂)
      | (.ok r, s₂) => (.ok (lowerStrip r == "y"), s₂)

/-- Test 6, `test_spaces_search`: same yes/no pattern. -/
def test_spaces_search : Proc := askYesNo

/-- Test 7, `test_error_handling`: same yes/no pattern. -/
def test_error_handling : Proc := askYesNo

/-- Test 8, `run_comprehensive_test`: same yes/no pattern. -/
def run_comprehensive_test : Proc := askYesNo

/-- `wait_for_user`: the between-check acknowledgment prompt, one blocking
read whose value is discarded. -/
def wait_for_user (s : InStream) : (Except PyExc Unit) × InStream :=
  match readLine s with
  | (.ok _, s₁) => (.ok (), s₁)
  | (.error e, s₁) => (.error e, s₁)

/-- The ResultSet: the Python dict `results`, an ordered mapping from check
name to boolean outcome (insertion order preserved). -/
abbrev ResultSet := List (String × Bool)

/-- `results[name] = v`: Python dict assignment.  An existing key keeps its
position and gets the new value; a new key is appended.  (Python dict keys
are unique, so updating the first occurrence is the dict semantics.) -/
def dictInsert (d : ResultSet) (k : String) (v : Bool) : ResultSet :=
  match d with
  | [] => [(k, v)]
  | q :: tl => if q.1 == k then (q.1, v) :: tl else q :: dictInsert tl k v

/-- `results.get(name, dflt)`: lookup with a default for an absent key. -/
def dictGet (d : ResultSet) (k : String) (dflt : Bool) : Bool :=
  match d.find? (fun p => p.1 == k) with
  | some p => p.2
  | none => dflt

/-- The hint lines printed when the Basic MCP Integration check failed
(lines 275 to 277 of the source). -/
def basicHints : List String :=
  ["- Check your Cursor MCP configuration",
   "- Verify the server.js path is correct",
   "- Ensure the server starts without errors"]

/-- The hint lines printed when the Text Generation Inference check failed
(lines 280 to 281 of the source). -/
def inferenceHints : List String :=
  ["- Verify your HF_TOKEN is set in the MCP configuration",
   "- Check that your token has the necessary permissions"]

/-- The conditional troubleshooting section of `generate_test_report`:
`if not results.get(name, True): print(hints)` for the two named checks. -/
def troubleshootingTips (results : ResultSet) : List String :=
  (if dictGet results "Basic MCP Integration" true then [] else basicHints)
  ++ (if dictGet results "Text Generation Inference" true then [] else inferenceHints)

/-- What `generate_test_report` computes when it succeeds. -/
structure Report where
  total : Nat
  passed : Nat
  failed : Nat
  successRate : ℚ
  details : ResultSet
  tips : List String
  deriving DecidableEq, Repr

/-- `generate_test_report(results)`: counts entries and passes, then computes
`(passed_tests/total_tests)*100`.  Python raises ZeroDivisionError when
`total_tests` is zero, so the embedding returns `none` exactly then; the
division is exact rational arithmetic (5/8 times 100 is representable exactly
as a binary double, so the float in the source agrees on the claimed inputs). -/
def generate_test_report (results : ResultSet) : Option Report :=
  let total_tests := results.length
  let passed_tests := results.countP (fun p => p.2)
  let failed_tests := total_tests - passed_tests
  if total_tests = 0 then none
  else some
    { total := total_tests
      passed := passed_tests
      failed := failed_tests
      successRate := ((passed_tests : ℚ) / (total_tests : ℚ)) * 100
      details := results
      tips := troubleshootingTips results }

/-- The `:.1f` rendering of a rate: the integer part and the tenths digit
after rounding to one decimal place.  At every input of the claims the rate
times ten is an integer, so every rounding convention agrees. -/
def fmtOneDecimal (q : ℚ) : ℤ × ℤ :=
  let t := round (q * 10)
  (t / 10, t % 10)

/-- How the run loop of `main` ended. -/
inductive LoopExit where
  | completed
  | interrupted
  | kbAtWait
  | excAtWait (msg : String)
  deriving DecidableEq, Repr

/-- The outcome of `if test_name != tests[-1][0]: wait_for_user()` after a
check has recorded its outcome: either proceed to the next check, or the
acknowledgment prompt itself raised (this call sits outside the try block of
the loop, so anything it raises escapes the loop). -/
inductive StepRes where
  | proceed (s : InStream)
  | stop (e : LoopExit) (s : InStream)
  deriving DecidableEq, Repr

/-- The tail of each loop iteration in `main`: skip the acknowledgment prompt
after the last-named check, otherwise block on `wait_for_user`. -/
def stepAfter (lastName name : String) (s : InStream) : StepRes :=
  if name = lastName then .proceed s
  else
    match wait_for_user s with
    | (.ok _, s₁) => .proceed s₁
    | (.error .kb, s₁) => .stop .kbAtWait s₁
    | (.error (.exc m), s₁) => .stop (.excAtWait m) s₁

/-- The run loop of `main`: for each check, run its procedure inside
`try ... except KeyboardInterrupt: break / except Exception: record False`,
record the outcome in the ResultSet, then pause at the acknowledgment prompt
(which is outside the try block). -/
def runLoop (lastName : String) : List (String × Proc) → InStream → ResultSet →
    ResultSet × InStream × LoopExit
  | [], s, acc => (acc, s, .completed)
  | (name, p) :: rest, s, acc =>
    match p s with
    | (.error .kb, s₁) => (acc, s₁, .interrupted)
    | (.error (.exc _), s₁) =>
      match stepAfter lastName name s₁ with
      | .proceed s₂ => runLoop lastName rest s₂ (dictInsert acc name false)
      | .stop e s₂ => (dictInsert acc name false, s₂, e)
    | (.ok b, s₁) =>
      match stepAfter lastName name s₁ with
      | .proceed s₂ => runLoop lastName rest s₂ (dictInsert acc name b)
      | .stop e s₂ => (dictInsert acc name b, s₂, e)

/-- The ordered check sequence of `main` (lines 293 to 302 of the source). -/
def tests : List (String × Proc) :=
  [("Basic MCP Integration", test_basic_functionality),
   ("Model Search", test_model_search),
   ("Model Information", test_model_info),
   ("Dataset Search", test_dataset_search),
   ("Text Generation Inference", test_inference),
   ("Spaces Search", test_spaces_search),
   ("Error Handling", test_error_handling),
   ("Comprehensive Test", run_comprehensive_test)]

/-- `tests[-1][0]`, the name the loop compares against to skip the final
acknowledgment prompt. -/
def lastTestName : String := (tests.getLast?.map Prod.fst).getD ""

/-- How one call of `main` ends, as seen by the `__main__` guard. -/
inductive MainResult where
  | reported (results : ResultSet) (rep : Report)
  | zeroDiv (results : ResultSet)
  | kbPropagated (results : ResultSet)
  | excPropagated (results : ResultSet) (msg : String)
  deriving DecidableEq, Repr

/-- `main()`: run the loop, then `generate_test_report(results)`.  A normal or
break-terminated loop reaches the report; a KeyboardInterrupt or other
exception raised at the acknowledgment prompt escapes `main` (that call is
outside the try block), and a ZeroDivisionError inside the report escapes as
well. -/
def main (s : InStream) : MainResult :=
  match runLoop lastTestName tests s [] with
  | (acc, _, .completed) =>
    match generate_test_report acc with
    | some rep => .reported acc rep
    | none => .zeroDiv acc
  | (acc, _, .interrupted) =>
    match generate_test_report acc with
    | some rep => .reported acc rep
    | none => .zeroDiv acc
  | (acc, _, .kbAtWait) => .kbPropagated acc
  | (acc, _, .excAtWait m) => .excPropagated acc m

/-- The observable process exit: status 0 with or without the goodbye notice,
or a crash (uncaught exception, traceback, nonzero status). -/
inductive ProcessExit where
  | exitZeroNormal
  | exitZeroGoodbye
  | crash (msg : String)
  deriving DecidableEq, Repr

/-- The `if __name__ == "__main__"` guard: `main()` inside
`try ... except KeyboardInterrupt: print goodbye; sys.exit(0)`.  Any other
exception escaping `main` is uncaught and crashes the process. -/
def topLevel (s : InStream) : ProcessExit :=
  match main s with
  | .reported _ _ => .exitZeroNormal
  | .zeroDiv _ => .crash "ZeroDivisionError"
  | .kbPropagated _ => .exitZeroGoodbye
  | .excPropagated _ m => .crash m

/-! ## Helper lemmas -/

/-- A nonempty ResultSet always yields a report, with the counts and rate
computed from the entries. -/
theorem report_of_ne_nil (acc : ResultSet) (h : acc ≠ []) :
    generate_test_report acc = some
      { total := acc.length
        passed := acc.countP (fun q => q.2)
        failed := acc.length - acc.countP (fun q => q.2)
        successRate := ((acc.countP (fun q => q.2) : ℚ) / (acc.length : ℚ)) * 100
        details := acc
        tips := troubleshootingTips acc } := by
  have hlen : acc.length ≠ 0 := by simpa using h
  simp [generate_test_report, hlen]

/-- The inference check with a gate answer that normalizes to the literal n:
returns true at once, leaving the rest of the input untouched. -/
theorem inference_gate_true (g : String) (rest : InStream)
    (h : (lowerStrip g == "n") = true) :
    test_inference (Ev.line g :: rest) = (Except.ok true, rest) := by
  simp [test_inference, readLine, h]

/-- The inference check with any other gate answer: the substantive question
is read and alone decides the verdict. -/
theorem inference_gate_false (g r : String) (rest : InStream)
    (h : (lowerStrip g == "n") = false) :
    test_inference (Ev.line g :: Ev.line r :: rest) =
      (Except.ok (lowerStrip r == "y"), rest) := by
  simp [test_inference, readLine, h]

/-- A dict.get with default true returns false exactly when the key is
present with value false. -/
theorem dictGet_false_iff (d : ResultSet) (k : String) :
    (dictGet d k true = false) ↔
      (d.find? (fun q => q.1 == k)).map Prod.snd = some false := by
  unfold dictGet
  cases h : d.find? (fun q => q.1 == k) with
  | none => simp
  | some q => simp

/-- Python dict assignment followed by lookup of the same key returns the
assigned value. -/
theorem dictGet_dictInsert_self (d : ResultSet) (k : String) (v dflt : Bool) :
    dictGet (dictInsert d k v) k dflt = v := by
  induction d with
  | nil => simp [dictInsert, dictGet]
  | cons q tl ih =>
    cases hq : (q.1 == k) with
    | true => simp [dictInsert, dictGet, hq]
    | false =>
      simp only [dictGet] at ih
      simp [dictInsert, dictGet, hq, ih]

/-! ## The claims -/

/-- C1: the claim states that the report generator computes the pass-rate
percentage only when the total is greater than zero, so that report
generation cannot fail on a zero divisor.  The code refutes this: line 256
divides passed by total unconditionally, so for an empty ResultSet the
division IS performed and raises ZeroDivisionError (report generation fails,
embedded as none).  The empty ResultSet is reachable: a cancellation at the
very first prompt, and then generate_test_report is called on it. -/
theorem C1_zero_division_on_empty :
    generate_test_report [] = none ∧ main [Ev.intr] = MainResult.zeroDiv [] :=
  ⟨rfl, rfl⟩

/-- C2: the claim states that a cancellation raised before any check has
completed prints the goodbye notice and exits with status 0.  The code
refutes this at the first blocking input point: the loop-level handler
catches the interrupt and breaks with an empty ResultSet, the report then
raises ZeroDivisionError, which the top-level guard does not catch
(it only catches KeyboardInterrupt), so the process crashes with a nonzero
status and no goodbye notice. -/
theorem C2_interrupt_before_first_check_crashes :
    topLevel [Ev.intr] = ProcessExit.crash "ZeroDivisionError" :=
  rfl

/-- C3 counterexample: a cancellation at the between-check acknowledgment
prompt does NOT unwind to the reporting phase.  After three completed checks
the interrupt at wait_for_user (which sits outside the try block of the
loop) escapes main before generate_test_report is reached: the run ends as
kbPropagated, not as reported, so no report over the three entries is ever
produced. -/
theorem C3_wait_interrupt_bypasses_report :
    main [Ev.line "y", Ev.line "", Ev.line "y", Ev.line "", Ev.line "y", Ev.intr] =
      MainResult.kbPropagated
        [("Basic MCP Integration", true), ("Model Search", true),
         ("Model Information", true)] :=
  rfl

/-- C3 (amended): a cancellation at a CHECK input prompt unwinds to the
reporting phase with exactly the checks completed so far, and when at least
one check has completed the report is generated over exactly those entries
and the process exits with status 0; a cancellation at the between-check
acknowledgment prompt instead bypasses the reporting phase and the process
exits with status 0 after the goodbye notice, producing no report. -/
theorem C3_amended_unwind :
    (∀ (s : InStream) (acc : ResultSet) (s₁ : InStream),
        runLoop lastTestName tests s [] = (acc, s₁, LoopExit.interrupted) →
        acc ≠ [] →
        ∃ rep : Report, generate_test_report acc = some rep ∧
          main s = MainResult.reported acc rep ∧
          rep.details = acc ∧ rep.total = acc.length ∧
          topLevel s = ProcessExit.exitZeroNormal)
    ∧ (∀ (s : InStream) (acc : ResultSet) (s₁ : InStream),
        runLoop lastTestName tests s [] = (acc, s₁, LoopExit.kbAtWait) →
        main s = MainResult.kbPropagated acc ∧
        topLevel s = ProcessExit.exitZeroGoodbye) := by
  constructor
  · intro s acc s₁ hrun hne
    have hrep := report_of_ne_nil acc hne
    refine ⟨_, hrep, ?_, rfl, rfl, ?_⟩
    · simp [main, hrun, hrep]
    · simp [topLevel, main, hrun, hrep]
  · intro s acc s₁ hrun
    constructor
    · simp [main, hrun]
    · simp [topLevel, main, hrun]

/-- C3 witness: after three completed checks, an interrupt at the fourth
check prompt yields a report over exactly the three entries and exit status
0, while an interrupt at the acknowledgment prompt yields the goodbye exit
with no report. -/
theorem C3_amended_unwind_witness :
    (∃ rep : Report,
        generate_test_report
          [("Basic MCP Integration", true), ("Model Search", true),
           ("Model Information", true)] = some rep ∧
        main [Ev.line "y", Ev.line "", Ev.line "y", Ev.line "", Ev.line "y",
              Ev.line "", Ev.intr] =
          MainResult.reported
            [("Basic MCP Integration", true), ("Model Search", true),
             ("Model Information", true)] rep ∧
        rep.details =
          [("Basic MCP Integration", true), ("Model Search", true),
           ("Model Information", true)] ∧
        rep.total = 3 ∧
        topLevel [Ev.line "y", Ev.line "", Ev.line "y", Ev.line "", Ev.line "y",
              Ev.line "", Ev.intr] = ProcessExit.exitZeroNormal)
    ∧ (main [Ev.line "y", Ev.line "", Ev.line "y", Ev.line "", Ev.line "y", Ev.intr] =
        MainResult.kbPropagated
          [("Basic MCP Integration", true), ("Model Search", true),
           ("Model Information", true)] ∧
       topLevel [Ev.line "y", Ev.line "", Ev.line "y", Ev.line "", Ev.line "y", Ev.intr] =
        ProcessExit.exitZeroGoodbye) := by
  constructor
  · obtain ⟨rep, h0, h1, h2, h3, h4⟩ :=
      C3_amended_unwind.1
        [Ev.line "y", Ev.line "", Ev.line "y", Ev.line "", Ev.line "y", Ev.line "", Ev.intr]
        [("Basic MCP Integration", true), ("Model Search", true),
         ("Model Information", true)] [] rfl (by simp)
    exact ⟨rep, h0, h1, h2, h3.trans rfl, h4⟩
  · exact C3_amended_unwind.2
      [Ev.line "y", Ev.line "", Ev.line "y", Ev.line "", Ev.line "y", Ev.intr]
      [("Basic MCP Integration", true), ("Model Search", true),
       ("Model Information", true)] [] rfl

/-- C4: a check whose procedure raises an ordinary (non-cancellation)
exception is handled at the per-check boundary: the loop records false under
that name (the lookup of the name then yields false) and control continues
exactly as after a normally returning check — on to the acknowledgment gate
and the remaining checks.  No such exception escapes the loop. -/
theorem C4_exception_contained (lastName name : String) (p : Proc)
    (rest : List (String × Proc)) (s s₁ : InStream) (acc : ResultSet) (m : String)
    (h : p s = (Except.error (PyExc.exc m), s₁)) :
    runLoop lastName ((name, p) :: rest) s acc =
      (match stepAfter lastName name s₁ with
       | .proceed s₂ => runLoop lastName rest s₂ (dictInsert acc name false)
       | .stop e s₂ => (dictInsert acc name false, s₂, e))
    ∧ dictGet (dictInsert acc name false) name true = false := by
  constructor
  · simp [runLoop, h]
  · exact dictGet_dictInsert_self acc name false true

/-- C4 witness: a first check that raises is recorded as false and the next
check still runs to completion. -/
theorem C4_exception_contained_witness :
    runLoop "Model Search"
      [("Basic MCP Integration", fun s => (Except.error (PyExc.exc "boom"), s)),
       ("Model Search", test_model_search)]
      [Ev.line "", Ev.line "y"] [] =
      ([("Basic MCP Integration", false), ("Model Search", true)], [],
        LoopExit.completed) := by
  have h := C4_exception_contained "Model Search" "Basic MCP Integration"
    (fun s => (Except.error (PyExc.exc "boom"), s)) [("Model Search", test_model_search)]
    [Ev.line "", Ev.line "y"] [Ev.line "", Ev.line "y"] [] "boom" rfl
  rw [h.1]
  rfl

/-- C5: answering no (entering the literal n at the y/n prompt) to the
prerequisite-configured gating question of the inference check yields
outcome true, and the substantive question is never prompted: the remaining
input is returned untouched, so no second read takes place. -/
theorem C5_inference_gate_skip (g : String) (rest : InStream)
    (h : lowerStrip g = "n") :
    test_inference (Ev.line g :: rest) = (Except.ok true, rest) := by
  simp [test_inference, readLine, h]

/-- C5 witness: a whitespace-and-case variant of n skips the substantive
question and records true. -/
theorem C5_inference_gate_skip_witness :
    lowerStrip " N " = "n" ∧
    test_inference [Ev.line " N ", Ev.line "y"] = (Except.ok true, [Ev.line "y"]) :=
  ⟨rfl, C5_inference_gate_skip " N " [Ev.line "y"] rfl⟩

/-- C6: every outcome-deciding yes/no question of the eight checks maps the
response to exactly (lowerStrip response == y): any response equal to y after
lowercasing and trimming yields true, every other response yields false.
For the inference check this is the substantive question, reached whenever
the gate answer does not normalize to n. -/
theorem C6_yes_no_mapping :
    (∀ (r : String) (rest : InStream),
        test_basic_functionality (Ev.line r :: rest) = (Except.ok (lowerStrip r == "y"), rest))
    ∧ (∀ (r : String) (rest : InStream),
        test_model_search (Ev.line r :: rest) = (Except.ok (lowerStrip r == "y"), rest))
    ∧ (∀ (r : String) (rest : InStream),
        test_model_info (Ev.line r :: rest) = (Except.ok (lowerStrip r == "y"), rest))
    ∧ (∀ (r : String) (rest : InStream),
        test_dataset_search (Ev.line r :: rest) = (Except.ok (lowerStrip r == "y"), rest))
    ∧ (∀ (r : String) (rest : InStream),
        test_spaces_search (Ev.line r :: rest) = (Except.ok (lowerStrip r == "y"), rest))
    ∧ (∀ (r : String) (rest : InStream),
        test_error_handling (Ev.line r :: rest) = (Except.ok (lowerStrip r == "y"), rest))
    ∧ (∀ (r : String) (rest : InStream),
        run_comprehensive_test (Ev.line r :: rest) = (Except.ok (lowerStrip r == "y"), rest))
    ∧ (∀ (g r : String) (rest : InStream), lowerStrip g ≠ "n" →
        test_inference (Ev.line g :: Ev.line r :: rest) =
          (Except.ok (lowerStrip r == "y"), rest)) := by
  refine ⟨fun r rest => rfl, fun r rest => rfl, fun r rest => rfl, fun r rest => rfl,
    fun r rest => rfl, fun r rest => rfl, fun r rest => rfl, fun g r rest h => ?_⟩
  exact inference_gate_false g r rest (by simpa using h)

/-- C6 witness: case and whitespace variants of y all yield true; n, the
empty string, maybe, and even YES yield false; the substantive inference
question behaves the same. -/
theorem C6_yes_no_mapping_witness :
    test_basic_functionality [Ev.line "Y"] = (Except.ok true, []) ∧
    test_model_search [Ev.line " y "] = (Except.ok true, []) ∧
    test_model_info [Ev.line "y"] = (Except.ok true, []) ∧
    test_dataset_search [Ev.line "n"] = (Except.ok false, []) ∧
    test_spaces_search [Ev.line ""] = (Except.ok false, []) ∧
    test_error_handling [Ev.line "maybe"] = (Except.ok false, []) ∧
    run_comprehensive_test [Ev.line "YES"] = (Except.ok false, []) ∧
    test_inference [Ev.line "y", Ev.line " Y "] = (Except.ok true, []) :=
  ⟨(C6_yes_no_mapping.1 "Y" []).trans rfl,
    (C6_yes_no_mapping.2.1 " y " []).trans rfl,
    (C6_yes_no_mapping.2.2.1 "y" []).trans rfl,
    (C6_yes_no_mapping.2.2.2.1 "n" []).trans rfl,
    (C6_yes_no_mapping.2.2.2.2.1 "" []).trans rfl,
    (C6_yes_no_mapping.2.2.2.2.2.1 "maybe" []).trans rfl,
    (C6_yes_no_mapping.2.2.2.2.2.2.1 "YES" []).trans rfl,
    (C6_yes_no_mapping.2.2.2.2.2.2.2 "y" " Y " [] (by decide)).trans rfl⟩

/-- C7: a full run of the eight checks with no cancellation event in the
input (here: any sixteen entered lines, enough for every branch of the run)
completes the loop, produces a ResultSet with exactly eight entries, and the
report exists with passed plus failed equal to eight. -/
theorem C7_full_run_counts (a b c d e f g h i j k l m n o p : String) (tl : List Ev) :
    ∃ rep : Report,
      generate_test_report
        (runLoop lastTestName tests
          ([Ev.line a, Ev.line b, Ev.line c, Ev.line d, Ev.line e, Ev.line f, Ev.line g,
            Ev.line h, Ev.line i, Ev.line j, Ev.line k, Ev.line l, Ev.line m, Ev.line n,
            Ev.line o, Ev.line p] ++ tl) []).1 = some rep ∧
      (runLoop lastTestName tests
          ([Ev.line a, Ev.line b, Ev.line c, Ev.line d, Ev.line e, Ev.line f, Ev.line g,
            Ev.line h, Ev.line i, Ev.line j, Ev.line k, Ev.line l, Ev.line m, Ev.line n,
            Ev.line o, Ev.line p] ++ tl) []).2.2 = LoopExit.completed ∧
      (runLoop lastTestName tests
          ([Ev.line a, Ev.line b, Ev.line c, Ev.line d, Ev.line e, Ev.line f, Ev.line g,
            Ev.line h, Ev.line i, Ev.line j, Ev.line k, Ev.line l, Ev.line m, Ev.line n,
            Ev.line o, Ev.line p] ++ tl) []).1.length = 8 ∧
      rep.total = 8 ∧ rep.passed + rep.failed = 8 := by
  cases hg : (lowerStrip i == "n") with
  | true =>
    have h2 := inference_gate_true i
      (Ev.line j :: Ev.line k :: Ev.line l :: Ev.line m :: Ev.line n :: Ev.line o ::
        Ev.line p :: tl) hg
    have hrun : runLoop lastTestName tests
        ([Ev.line a, Ev.line b, Ev.line c, Ev.line d, Ev.line e, Ev.line f, Ev.line g,
          Ev.line h, Ev.line i, Ev.line j, Ev.line k, Ev.line l, Ev.line m, Ev.line n,
          Ev.line o, Ev.line p] ++ tl) [] =
        ([("Basic MCP Integration", lowerStrip a == "y"),
          ("Model Search", lowerStrip c == "y"),
          ("Model Information", lowerStrip e == "y"),
          ("Dataset Search", lowerStrip g == "y"),
          ("Text Generation Inference", true),
          ("Spaces Search", lowerStrip k == "y"),
          ("Error Handling", lowerStrip m == "y"),
          ("Comprehensive Test", lowerStrip o == "y")],
         Ev.line p :: tl, LoopExit.completed) := by
      have hstep : runLoop lastTestName tests
          ([Ev.line a, Ev.line b, Ev.line c, Ev.line d, Ev.line e, Ev.line f, Ev.line g,
            Ev.line h, Ev.line i, Ev.line j, Ev.line k, Ev.line l, Ev.line m, Ev.line n,
            Ev.line o, Ev.line p] ++ tl) [] =
          runLoop lastTestName
            [("Text Generation Inference", test_inference),
             ("Spaces Search", test_spaces_search),
             ("Error Handling", test_error_handling),
             ("Comprehensive Test", run_comprehensive_test)]
            (Ev.line i :: Ev.line j :: Ev.line k :: Ev.line l :: Ev.line m :: Ev.line n ::
              Ev.line o :: Ev.line p :: tl)
            [("Basic MCP Integration", lowerStrip a == "y"),
             ("Model Search", lowerStrip c == "y"),
             ("Model Information", lowerStrip e == "y"),
             ("Dataset Search", lowerStrip g == "y")] := rfl
      rw [hstep, runLoop, h2]; rfl
    rw [hrun]
    refine ⟨_, report_of_ne_nil _ (by simp), rfl, rfl, rfl, ?_⟩
    have hle := List.countP_le_length (p := fun q : String × Bool => q.2)
      (l := [("Basic MCP Integration", lowerStrip a == "y"),
          ("Model Search", lowerStrip c == "y"),
          ("Model Information", lowerStrip e == "y"),
          ("Dataset Search", lowerStrip g == "y"),
          ("Text Generation Inference", true),
          ("Spaces Search", lowerStrip k == "y"),
          ("Error Handling", lowerStrip m == "y"),
          ("Comprehensive Test", lowerStrip o == "y")])
    simp only [List.length_cons, List.length_nil] at hle ⊢
    omega
  | false =>
    have h2 := inference_gate_false i j
      (Ev.line k :: Ev.line l :: Ev.line m :: Ev.line n :: Ev.line o :: Ev.line p :: tl) hg
    have hrun : runLoop lastTestName tests
        ([Ev.line a, Ev.line b, Ev.line c, Ev.line d, Ev.line e, Ev.line f, Ev.line g,
          Ev.line h, Ev.line i, Ev.line j, Ev.line k, Ev.line l, Ev.line m, Ev.line n,
          Ev.line o, Ev.line p] ++ tl) [] =
        ([("Basic MCP Integration", lowerStrip a == "y"),
          ("Model Search", lowerStrip c == "y"),
          ("Model Information", lowerStrip e == "y"),
          ("Dataset Search", lowerStrip g == "y"),
          ("Text Generation Inference", lowerStrip j == "y"),
          ("Spaces Search", lowerStrip l == "y"),
          ("Error Handling", lowerStrip n == "y"),
          ("Comprehensive Test", lowerStrip p == "y")],
         tl, LoopExit.completed) := by
      have hstep : runLoop lastTestName tests
          ([Ev.line a, Ev.line b, Ev.line c, Ev.line d, Ev.line e, Ev.line f, Ev.line g,
            Ev.line h, Ev.line i, Ev.line j, Ev.line k, Ev.line l, Ev.line m, Ev.line n,
            Ev.line o, Ev.line p] ++ tl) [] =
          runLoop lastTestName
            [("Text Generation Inference", test_inference),
             ("Spaces Search", test_spaces_search),
             ("Error Handling", test_error_handling),
             ("Comprehensive Test", run_comprehensive_test)]
            (Ev.line i :: Ev.line j :: Ev.line k :: Ev.line l :: Ev.line m :: Ev.line n ::
              Ev.line o :: Ev.line p :: tl)
            [("Basic MCP Integration", lowerStrip a == "y"),
             ("Model Search", lowerStrip c == "y"),
             ("Model Information", lowerStrip e == "y"),
             ("Dataset Search", lowerStrip g == "y")] := rfl
      rw [hstep, runLoop, h2]; rfl
    rw [hrun]
    refine ⟨_, report_of_ne_nil _ (by simp), rfl, rfl, rfl, ?_⟩
    have hle := List.countP_le_length (p := fun q : String × Bool => q.2)
      (l := [("Basic MCP Integration", lowerStrip a == "y"),
          ("Model Search", lowerStrip c == "y"),
          ("Model Information", lowerStrip e == "y"),
          ("Dataset Search", lowerStrip g == "y"),
          ("Text Generation Inference", lowerStrip j == "y"),
          ("Spaces Search", lowerStrip l == "y"),
          ("Error Handling", lowerStrip n == "y"),
          ("Comprehensive Test", lowerStrip p == "y")])
    simp only [List.length_cons, List.length_nil] at hle ⊢
    omega

/-- C8: for a ResultSet of 8 entries with 5 passed and 3 failed, the report
has success rate exactly 5/8 times 100 = 125/2 = 62.5, and the one-decimal
rendering is the digits 62 point 5. -/
theorem C8_success_rate_62_5 :
    ∃ rep : Report,
      generate_test_report
        [("Basic MCP Integration", true), ("Model Search", true), ("Model Information", true),
         ("Dataset Search", true), ("Text Generation Inference", true),
         ("Spaces Search", false), ("Error Handling", false), ("Comprehensive Test", false)]
        = some rep ∧
      rep.passed = 5 ∧ rep.failed = 3 ∧ rep.total = 8 ∧
      rep.successRate = 125 / 2 ∧ fmtOneDecimal rep.successRate = (62, 5) := by
  refine ⟨_, rfl, rfl, rfl, rfl, ?_, ?_⟩
  · show ((5 : ℕ) : ℚ) / ((8 : ℕ) : ℚ) * 100 = 125 / 2
    norm_num
  · show fmtOneDecimal (((5 : ℕ) : ℚ) / ((8 : ℕ) : ℚ) * 100) = (62, 5)
    have hq : ((5 : ℕ) : ℚ) / ((8 : ℕ) : ℚ) * 100 = 125 / 2 := by norm_num
    rw [hq]
    have hr : round ((125 : ℚ) / 2 * 10) = 625 := by norm_num [round_eq]
    simp [fmtOneDecimal, hr]

/-- C9: the troubleshooting section contains the static hint lines for the
Basic MCP Integration check, and for the Text Generation Inference check,
exactly when that named check is present in the ResultSet with outcome
false; a check absent from the ResultSet (lookup finds nothing, so the
default true applies) contributes no guidance lines. -/
theorem C9_guidance_iff_failed (results : ResultSet) :
    troubleshootingTips results =
      (if (results.find? (fun q => q.1 == "Basic MCP Integration")).map Prod.snd = some false
        then basicHints else [])
      ++ (if (results.find? (fun q => q.1 == "Text Generation Inference")).map Prod.snd = some false
        then inferenceHints else []) := by
  have h1 := dictGet_false_iff results "Basic MCP Integration"
  have h2 := dictGet_false_iff results "Text Generation Inference"
  cases hb1 : dictGet results "Basic MCP Integration" true <;>
    cases hb2 : dictGet results "Text Generation Inference" true
  all_goals rw [hb1] at h1; rw [hb2] at h2; simp at h1 h2
  all_goals simp [troubleshootingTips, hb1, hb2, h1, h2]

/-- C10: in the inference check, only a gate response that normalizes (after
lowercasing and trimming) to the literal string n takes the skip-and-record-
true path; any other gate response, the word no and the empty string
included, leads to the substantive question being read, and the outcome is
then exactly whether that second answer normalizes to y. -/
theorem C10_gate_literal_n (g r : String) (rest : InStream) :
    ((lowerStrip g == "n") = true →
      test_inference (Ev.line g :: rest) = (Except.ok true, rest))
    ∧ ((lowerStrip g == "n") = false →
      test_inference (Ev.line g :: Ev.line r :: rest) =
        (Except.ok (lowerStrip r == "y"), rest)) :=
  ⟨fun h => inference_gate_true g rest h, fun h => inference_gate_false g r rest h⟩

/-- C10 witness: the word no does not trigger the skip (the second question
decides), the empty string does not trigger the skip, and a variant of n
does trigger it, leaving the rest of the input unread. -/
theorem C10_gate_literal_n_witness :
    test_inference [Ev.line "no", Ev.line "y"] = (Except.ok true, []) ∧
    test_inference [Ev.line "", Ev.line "n"] = (Except.ok false, []) ∧
    test_inference [Ev.line " N ", Ev.line "y"] = (Except.ok true, [Ev.line "y"]) :=
  ⟨((C10_gate_literal_n "no" "y" []).2 rfl).trans rfl,
    ((C10_gate_literal_n "" "n" []).2 rfl).trans rfl,
    (C10_gate_literal_n " N " "y" [Ev.line "y"]).1 rfl⟩

end HFTest
